import Mathlib

/-!
Shallow embedding of the orchestration layer of `fhir-validator-js`
(`src/index.js` and `src/validator.js`): the `FHIRValidator` class
(constructor normalization of the CLI context, `startValidator`,
`initializeSession`, `validate`, `startKeepAlive`, `shutdown`) and the
`createValidatorInstance` factory.  Network I/O is represented by
explicit response parameters, the spawned child process by a `World`
record, and JavaScript objects by association lists of string keys to
dynamic values.
-/

set_option autoImplicit false

/-- Dynamic JavaScript values, as far as the orchestration layer
inspects them: `null`, `undefined`, strings, integers, booleans,
arrays and plain objects (association lists in insertion order). -/
inductive JVal where
  | null
  | undefined
  | str (s : String)
  | num (n : Int)
  | bool (b : Bool)
  | arr (xs : List JVal)
  | obj (fields : List (String × JVal))

/-- JavaScript truthiness for the values of `JVal` (`NaN` and `-0`
do not arise in this code base, so integer `0` is the only falsy
number). -/
def JVal.truthy : JVal → Bool
  | .null => false
  | .undefined => false
  | .str s => !(s = "")
  | .num n => !(n = 0)
  | .bool b => b
  | .arr _ => true
  | .obj _ => true

/-- A JavaScript object: string keys to dynamic values, insertion
ordered, keys unique by construction of the operations below. -/
abbrev JObj := List (String × JVal)

/-- Property read `o[k]`: `undefined` when the key is absent. -/
def oget : JObj → String → JVal
  | [], _ => .undefined
  | (k', v') :: rest, k => if k' = k then v' else oget rest k

/-- Property write `o[k] = v`: overwrites the first binding of `k`,
appends a new binding at the end when `k` is absent (JavaScript
insertion-order semantics). -/
def oset : JObj → String → JVal → JObj
  | [], k, v => [(k, v)]
  | (k', v') :: rest, k, v =>
      if k' = k then (k, v) :: rest else (k', v') :: oset rest k v

/-- The sentinel strings `['n/a', '', 'null', 'none', 'na']` whose
`includes` test (strict equality, hence only on string values) guards
the `txServer` normalization in the constructor
(`src/validator.js:22`). -/
def isNaTxServer : JVal → Bool
  | .str s => s = "n/a" || s = "" || s = "null" || s = "none" || s = "na"
  | _ => false

/-- Constructor normalization of a (truthy) `cliContext` object,
`src/validator.js:22-24`:
`if (this.cliContext?.txServer && [...].includes(this.cliContext.txServer)) this.cliContext.txServer = null;`
`this.cliContext.igs = this.cliContext?.igs || [];`
`this.cliContext.sv = this.cliContext?.sv || '4.0.1';` -/
def normalizeCliContext (ctx : JObj) : JObj :=
  let ctx := if (oget ctx "txServer").truthy && isNaTxServer (oget ctx "txServer")
             then oset ctx "txServer" .null else ctx
  let ctx := if (oget ctx "igs").truthy then ctx else oset ctx "igs" (.arr [])
  let ctx := if (oget ctx "sv").truthy then ctx else oset ctx "sv" (.str "4.0.1")
  ctx

/-- The mutable instance fields of a `FHIRValidator` object:
`cliContext` (absent when the constructor received no context),
`sessionId`, the keep-alive timer handle (modelled by whether it is
set), the child-process handle `this.process` (modelled by its pid)
and the recorded `this.pid`. -/
structure ValidatorState where
  cliContext : Option JObj
  sessionId : Option String
  keepAliveInterval : Bool
  process : Option Nat
  pid : Option Nat

/-- The part of the outside world the instance can affect: whether the
child process spawned by this instance is still running. -/
structure World where
  childRunning : Bool

/-- The constructor `new FHIRValidator(cliContext)`, `src/validator.js:18-30`: when a
(truthy) context object is supplied it is stored and normalized in
place; `sessionId`, `keepAliveInterval` and `pid` start as `null`, and
no `this.process` exists yet. -/
def FHIRValidator.construct (cliContext : Option JObj) : ValidatorState :=
  { cliContext := cliContext.map normalizeCliContext
    sessionId := none
    keepAliveInterval := false
    process := none
    pid := none }

/-- Embedding of `shutdown()`, `src/validator.js:276-308`: clears the keep-alive
interval if set, and when a process handle is held it removes the
stream listeners, records `this.pid`, and drops the handle
(`this.process = null`).  It sends no signal to the child process, so
the `World` is returned unchanged — the child keeps running
("Detaching from FHIR Validator process. It will continue running in
the background."). -/
def shutdown (st : ValidatorState) (w : World) : ValidatorState × World :=
  let st := if st.keepAliveInterval then { st with keepAliveInterval := false } else st
  let st :=
    match st.process with
    | some p => { st with pid := some p, process := none }
    | none => st
  (st, w)

/-- One entry of `filesToValidate` in the wire contract of
`POST /validate`. -/
structure FileEntry where
  fileName : String
  fileContent : String
  fileType : String
deriving DecidableEq

/-- The body of a `POST /validate` request as the instance builds it
(`src/validator.js:220-224` and the fixed bodies of
`initializeSession` and the keep-alive ping). -/
structure ValidateRequest where
  cliContext : Option JObj
  filesToValidate : List FileEntry
  sessionId : Option String

/-- One entry of `response.data.outcomes`: the correlation metadata
`fileInfo` (modelled by its `fileName`, `none` once deleted or absent)
and the opaque issue payload. -/
structure Outcome where
  fileInfo : Option String
  issues : List String
deriving DecidableEq

/-- The body `response.data` of a successful `POST /validate`:
`{ sessionId, outcomes }` (`sessionId` is `none` when the field is
absent or `null`). -/
structure ServerResponse where
  sessionId : Option String
  outcomes : List Outcome

/-- Embedding of `initializeSession()`, `src/validator.js:165-187`: posts a fixed
placeholder file, stores `response.data.sessionId` and starts the
keep-alive timer; any error is rethrown as the fixed
`SessionInitError` message.  The network call is represented by its
result: `Except` error, or the `sessionId` field of the response. -/
def initializeSession (st : ValidatorState)
    (response : Except String (Option String)) : Except String ValidatorState :=
  match response with
  | .error _ => .error "Failed to initialize FHIR validation session."
  | .ok sid => .ok { st with sessionId := sid, keepAliveInterval := true }

/-- The fixed request body sent by `initializeSession()`
(`src/validator.js:169-176`). -/
def initializeSessionRequest (st : ValidatorState) : ValidateRequest :=
  { cliContext := st.cliContext
    filesToValidate :=
      [{ fileName := "initializeSession.json"
         fileContent := "\x7b\"resourceType\": \"Basic\"\x7d"
         fileType := "json" }]
    sessionId := none }

/-- Embedding of `startKeepAlive()`, `src/validator.js:252-271`: clears any
previous timer and installs a fresh one; the instance state only
records that a timer is set. -/
def startKeepAlive (st : ValidatorState) : ValidatorState :=
  { st with keepAliveInterval := true }

/-- The fixed request body each keep-alive tick posts
(`src/validator.js:257-265`), tagged with the current session id. -/
def keepAliveRequest (st : ValidatorState) : ValidateRequest :=
  { cliContext := st.cliContext
    filesToValidate :=
      [{ fileName := "keepalive.json"
         fileContent := "\x7b\"resourceType\": \"Basic\"\x7d"
         fileType := "json" }]
    sessionId := st.sessionId }

/-- One keep-alive timer tick: it posts `keepAliveRequest` and — on
success or failure alike (`src/validator.js:266-269`, failure is only
logged) — leaves the instance state unchanged. -/
def keepAliveTick (st : ValidatorState) : ValidatorState × ValidateRequest :=
  (st, keepAliveRequest st)

/-- The coercion `if (!Array.isArray(x)) x = [x]` — the normalization applied to
both `resource` and `profiles` in `validate()`
(`src/validator.js:197-204`). -/
def toArray : JVal → List JVal
  | .arr xs => xs
  | v => [v]

/-- The synthetic correlation identifier
`` `${batchId}_${index.toString()}.json` `` (`src/validator.js:215`). -/
def fileNameFor (batchId : String) (index : Nat) : String :=
  batchId ++ "_" ++ toString index ++ ".json"

/-- The callback `resourceEntry` (`src/validator.js:214-217`): one `filesToValidate`
entry per resource, with the synthetic file name and the serialized
payload. -/
def resourceEntry (stringify : JVal → String) (batchId : String)
    (index : Nat) (instance' : JVal) : FileEntry :=
  { fileName := fileNameFor batchId index
    fileContent := stringify instance'
    fileType := "json" }

/-- Per-outcome post-processing (`src/validator.js:231-242`): when the
outcome's `fileInfo.fileName` matches the synthetic name for its index
the `fileInfo` is deleted; on a mismatch the outcome is only logged
and returned untouched, `fileInfo` included. -/
def stripOutcome (batchId : String) (index : Nat) (o : Outcome) : Outcome :=
  if o.fileInfo = some (fileNameFor batchId index) then { o with fileInfo := none } else o

/-- The mapping `response.data.outcomes.map((outcome, index) => ...)`
(`src/validator.js:231-242`). -/
def processOutcomes (batchId : String) (os : List Outcome) : List Outcome :=
  os.enum.map fun p => stripOutcome batchId p.1 p.2

/-- What `validate()` hands back: `outcomes[0]` when the mapped list
has exactly one element, otherwise the whole list
(`src/validator.js:244-245`). -/
inductive ValidateResult where
  | single (o : Outcome)
  | collection (os : List Outcome)
deriving DecidableEq

/-- The observable effect of one `validate()` call: what the caller
gets (`result`), the instance state afterwards (`state`), and the HTTP
request issued, `none` when the call failed fast before any network
call (`request`). -/
structure ValidateOutput where
  result : Except String ValidateResult
  state : ValidatorState
  request : Option ValidateRequest

/-- Embedding of `validate(resource, profiles)`, `src/validator.js:190-250`.
`batchId` stands for the `crypto.randomUUID()` draw, `stringify` for
`JSON.stringify`, and `respond k` for the result the HTTP layer would
return to the (k+1)-th `POST /validate` attempt of this call — the
source makes exactly one such call, so only `respond 0` is consulted.
Steps: fail fast when no session id is stored; wrap non-array
`resource` and `profiles`; when the profiles list is non-empty,
mutate `this.cliContext.profiles` (an aliasing write that persists on
the instance); post; adopt a truthy response session id that differs
from the stored one; strip matching `fileInfo`s; collapse a
one-element outcome list to its only element.  A transport error is
rethrown as the fixed message `"FHIR validation request failed."`. -/
def validate (st : ValidatorState) (resource : JVal) (profiles : JVal)
    (batchId : String) (stringify : JVal → String)
    (respond : Nat → Except String ServerResponse) : ValidateOutput :=
  match st.sessionId with
  | none =>
      { result := .error "Session not initialized. You need to pass a valid CLI context object when creating a new validator instance."
        state := st
        request := none }
  | some _ =>
      let resources := toArray resource
      let profs := toArray profiles
      let cli :=
        st.cliContext.map fun c =>
          if profs.length > 0 then oset c "profiles" (.arr profs) else c
      let st := { st with cliContext := cli }
      let req : ValidateRequest :=
        { cliContext := cli
          filesToValidate := resources.enum.map fun p => resourceEntry stringify batchId p.1 p.2
          sessionId := st.sessionId }
      match respond 0 with
      | .error _ =>
          { result := .error "FHIR validation request failed."
            state := st
            request := some req }
      | .ok resp =>
          let st :=
            match resp.sessionId with
            | some sid =>
                if !(sid = "") && !(st.sessionId = some sid)
                then { st with sessionId := some sid } else st
            | none => st
          let outcomes := processOutcomes batchId resp.outcomes
          { result := .ok (match outcomes with
              | [o] => .single o
              | os => .collection os)
            state := st
            request := some req }

/-- The two ways the readiness polling loop of `startValidator`
(`src/validator.js:134-150`) can resolve, plus the pending state it is
left in while neither condition has occurred. -/
inductive WaitOutcome where
  | ready
  | otherBound
  | pending
deriving DecidableEq

/-- The 300 ms polling loop of `startValidator`
(`src/validator.js:134-150`): at each tick it resolves if the spawned
child has printed its readiness marker (`serverReady`), else resolves
— killing our child — if some server already answers the health check
on the fixed port 3500 (`serverUp`), else polls again.  `fuel` bounds
how many ticks we observe; the source loop itself has no bound, no
attempt counter and no error path. -/
def startWait (serverReady serverUp : Nat → Bool) : Nat → Nat → WaitOutcome
  | 0, _ => .pending
  | fuel + 1, k =>
      if serverReady k then .ready
      else if serverUp k then .otherBound
      else startWait serverReady serverUp fuel (k + 1)

/-- Embedding of `startValidator()`, `src/validator.js:75-162`, as a transformer of
the instance state and the world.  `initialUp` is the result of the
initial `isValidatorServerUp()` health check (itself a bounded HTTP
retry against the fixed `http://localhost:3500`); when it holds,
nothing is spawned.  Otherwise one child is spawned (pid `newPid`) and
the polling loop runs: on `ready` the pid is recorded; on
`otherBound` our child is killed (`this.process.kill()`); `pending`
after `fuel` ticks means the promise never resolved within the
observed window, returned as `none`.  There is no port allocation, no
`maxAttempts`, no retry with a fresh port, and no `StartupError`. -/
def startValidator (st : ValidatorState) (w : World) (initialUp : Bool)
    (serverReady serverUp : Nat → Bool) (newPid : Nat) (fuel : Nat) :
    Option (ValidatorState × World) :=
  if initialUp then some (st, w)
  else
    let st := { st with process := some newPid }
    let w := { w with childRunning := true }
    match startWait serverReady serverUp fuel 0 with
    | .ready => some ({ st with pid := some newPid }, w)
    | .otherBound => some (st, { w with childRunning := false })
    | .pending => none

/-- Embedding of `createValidatorInstance(cliContext)`, `src/index.js:8-17`:
constructs a `FHIRValidator`, awaits `startValidator()`, and — when
`cliContext` is falsy — calls `shutdown()` on the fresh instance and
returns `undefined`; otherwise awaits `initializeSession()` and
returns the instance.  The triple returned is (what the caller
receives — `none` standing for `undefined`, the final state of the
constructed instance, the final world); the outer `Option` is `none`
when `startValidator`'s readiness poll never resolved, and the
`Except` propagates `initializeSession`'s error. -/
def createValidatorInstance (cliContext : Option JObj) (w : World)
    (initialUp : Bool) (serverReady serverUp : Nat → Bool)
    (newPid : Nat) (fuel : Nat)
    (initResponse : Except String (Option String)) :
    Option (Except String (Option ValidatorState × ValidatorState) × World) :=
  let v := FHIRValidator.construct cliContext
  match startValidator v w initialUp serverReady serverUp newPid fuel with
  | none => none
  | some (v, w) =>
      match cliContext with
      | none =>
          let (v, w) := shutdown v w
          some (.ok (none, v), w)
      | some _ =>
          match initializeSession v initResponse with
          | .error e => some (.error e, w)
          | .ok v => some (.ok (some v, v), w)

/-! ## Shared lemmas -/

theorem oget_oset_self (o : JObj) (k : String) (v : JVal) : oget (oset o k v) k = v := by
  induction o with
  | nil => simp [oset, oget]
  | cons p rest ih =>
      by_cases h : p.1 = k
      · simp [oset, oget, h]
      · simp [oset, oget, h, ih]

theorem oget_oset_of_ne (o : JObj) (k k' : String) (v : JVal) (h : k' ≠ k) :
    oget (oset o k v) k' = oget o k' := by
  have hkk : ¬(k = k') := fun hk => h hk.symm
  induction o with
  | nil => simp [oset, oget, hkk]
  | cons p rest ih =>
      obtain ⟨pk, pv⟩ := p
      by_cases hp : pk = k
      · subst hp
        simp [oset, oget, hkk]
      · simp [oset, oget, hp, ih]

theorem processOutcomes_length (batchId : String) (os : List Outcome) :
    (processOutcomes batchId os).length = os.length := by
  simp [processOutcomes]

theorem processOutcomes_get (batchId : String) (os : List Outcome) (i : Nat)
    (h1 : i < (processOutcomes batchId os).length) (h2 : i < os.length) :
    (processOutcomes batchId os).get ⟨i, h1⟩ = stripOutcome batchId i (os.get ⟨i, h2⟩) := by
  simp only [processOutcomes, List.get_eq_getElem, List.getElem_map]
  rw [List.getElem_enum]

theorem validate_request_sessionId (st : ValidatorState) (resource profiles : JVal)
    (batchId : String) (stringify : JVal → String)
    (respond : Nat → Except String ServerResponse) (req : ValidateRequest)
    (h : (validate st resource profiles batchId stringify respond).request = some req) :
    req.sessionId = st.sessionId := by
  unfold validate at h
  cases hs : st.sessionId with
  | none => simp [hs] at h
  | some sid =>
      simp only [hs] at h
      cases hr : respond 0 with
      | error e => simp [hr] at h; simp [← h, hs]
      | ok resp => simp [hr] at h; simp [← h, hs]

theorem validate_state_cliContext (st : ValidatorState) (sid : String)
    (resource profiles : JVal) (batchId : String) (stringify : JVal → String)
    (respond : Nat → Except String ServerResponse) (h : st.sessionId = some sid) :
    (validate st resource profiles batchId stringify respond).state.cliContext
      = st.cliContext.map (fun c =>
          if (toArray profiles).length > 0 then oset c "profiles" (.arr (toArray profiles)) else c) := by
  unfold validate
  simp only [h]
  cases hr : respond 0 with
  | error e => simp
  | ok resp =>
      simp only
      cases hsid : resp.sessionId with
      | none => simp [hsid]
      | some sid' =>
          simp only [hsid]
          split <;> rfl

theorem startWait_const_false (fuel k : Nat) :
    startWait (fun _ => false) (fun _ => false) fuel k = .pending := by
  induction fuel generalizing k with
  | zero => rfl
  | succ n ih => simp [startWait, ih]

/-! ## Claim C1 -/

/-- C1, counterexample.  The claim says `shutdown()` terminates the
supervised child process so that no child process started by the
instance remains running afterwards.  On a started instance holding a
live child process, `shutdown()` leaves the child running: the world
still reports `childRunning = true` after the call. -/
theorem c1_counterexample :
    (shutdown
      { cliContext := some [("sv", JVal.str "4.0.1")], sessionId := some "sess"
        keepAliveInterval := true, process := some 42, pid := none }
      { childRunning := true }).2.childRunning = true := rfl

/-- C1, amended.  `shutdown()` cancels the keep-alive timer and
releases the process handle (recording its pid and dropping
`this.process`), leaving the session id and the CLI context untouched,
but it never signals the child: the world — in particular whether the
child process is running — is returned exactly as it was. -/
theorem c1_amended (st : ValidatorState) (w : World) :
    (shutdown st w).2 = w
    ∧ (shutdown st w).1.keepAliveInterval = false
    ∧ (shutdown st w).1.process = none
    ∧ (shutdown st w).1.sessionId = st.sessionId
    ∧ (shutdown st w).1.cliContext = st.cliContext := by
  unfold shutdown
  cases hk : st.keepAliveInterval <;> cases hp : st.process <;> simp [hk, hp]

/-! ## Claim C2 -/

/-- C2, counterexample.  The claim says that after `shutdown()` a
subsequent `validate()` fails fast with a "session not initialized"
error before any network call.  On an instance whose session was
initialized, `shutdown()` does not clear `sessionId`, so the
subsequent `validate()` issues a network request and returns outcomes
normally. -/
theorem c2_counterexample :
    (validate
      (shutdown
        { cliContext := some [("sv", JVal.str "4.0.1")], sessionId := some "sess-1"
          keepAliveInterval := true, process := some 42, pid := none }
        { childRunning := true }).1
      (JVal.obj []) (JVal.arr []) "b" (fun _ => "")
      (fun _ => .ok { sessionId := some "sess-1"
                      outcomes := [{ fileInfo := some (fileNameFor "b" 0), issues := [] }] })).request.isSome
      = true
    ∧ (validate
      (shutdown
        { cliContext := some [("sv", JVal.str "4.0.1")], sessionId := some "sess-1"
          keepAliveInterval := true, process := some 42, pid := none }
        { childRunning := true }).1
      (JVal.obj []) (JVal.arr []) "b" (fun _ => "")
      (fun _ => .ok { sessionId := some "sess-1"
                      outcomes := [{ fileInfo := some (fileNameFor "b" 0), issues := [] }] })).result
      = .ok (.single { fileInfo := none, issues := [] }) := by
  constructor
  · rfl
  · rfl

/-- C2, amended.  `validate()` fails fast with the fixed
"Session not initialized" error and issues no network request exactly
when no session id is stored; `shutdown()` leaves the stored session
id unchanged, so a `validate()` after `shutdown()` on an initialized
instance still proceeds to the network. -/
theorem c2_amended (st : ValidatorState) (w : World) (resource profiles : JVal)
    (batchId : String) (stringify : JVal → String)
    (respond : Nat → Except String ServerResponse) :
    (shutdown st w).1.sessionId = st.sessionId
    ∧ ((validate st resource profiles batchId stringify respond).request = none
        ↔ st.sessionId = none)
    ∧ (validate { st with sessionId := none } resource profiles batchId stringify
        respond).result
      = .error "Session not initialized. You need to pass a valid CLI context object when creating a new validator instance." := by
  refine ⟨?_, ?_, ?_⟩
  · unfold shutdown
    cases hk : st.keepAliveInterval <;> cases hp : st.process <;> simp [hk, hp]
  · unfold validate
    cases hs : st.sessionId with
    | none => simp
    | some sid =>
        simp only [hs]
        cases hr : respond 0 with
        | error e => simp
        | ok resp =>
            simp only
            cases hsid : resp.sessionId with
            | none => simp
            | some sid' => split <;> simp
  · rfl

/-! ## Claim C5 -/

/-- C5, counterexample.  The claim says that with `maxAttempts = N`
and a child that always fails to bind, starting terminates with a
`StartupError` after exactly `N` attempts on distinct ports.
`startValidator` has no `maxAttempts`, no port allocation and no
`StartupError`: with a child that never signals readiness and no
other server on the fixed port, the readiness poll has still not
resolved after 50 polls — no error of any kind is produced. -/
theorem c5_counterexample :
    startValidator
      { cliContext := some [("sv", JVal.str "4.0.1")], sessionId := none
        keepAliveInterval := false, process := none, pid := none }
      { childRunning := false }
      false (fun _ => false) (fun _ => false) 42 50 = none := by
  unfold startValidator
  simp [startWait_const_false]

/-- C5, amended.  `startValidator()` performs no bounded retry over
ports: it health-checks the fixed port 3500 and spawns at most one
child; when the spawned child never signals readiness and no other
server ever answers on the port, the readiness poll never resolves —
after any number of polls the start is still pending, and no
`StartupError` (or any error) is ever raised. -/
theorem c5_amended (st : ValidatorState) (w : World) (newPid fuel : Nat) :
    startValidator st w false (fun _ => false) (fun _ => false) newPid fuel = none := by
  unfold startValidator
  simp [startWait_const_false]

/-! ## Claim C3 -/

/-- C3, counterexample.  The claim says a collection of M items
returns a collection of exactly M outcomes.  For a one-element
collection (M = 1) `validate()` returns a bare single outcome — the
`outcomes.length === 1` collapse fires for one-element array inputs
too — not a one-element collection. -/
theorem c3_counterexample :
    (validate
      { cliContext := some [("sv", JVal.str "4.0.1")], sessionId := some "s"
        keepAliveInterval := true, process := none, pid := none }
      (JVal.arr [JVal.obj []]) (JVal.arr []) "b" (fun _ => "")
      (fun _ => .ok { sessionId := some "s"
                      outcomes := [{ fileInfo := some (fileNameFor "b" 0), issues := ["i"] }] })).result
      = .ok (.single { fileInfo := none, issues := ["i"] })
    ∧ ValidateResult.single { fileInfo := none, issues := ["i"] }
        ≠ ValidateResult.collection [{ fileInfo := none, issues := ["i"] }] :=
  ⟨rfl, by decide⟩

/-- C3, amended.  When the server answers one outcome per submitted
item: an answer with M ≠ 1 outcomes yields a collection of exactly M
outcomes, the i-th being the (stripped) i-th response outcome — input
order preserved; an answer with a single outcome (a single non-array
item, but also a one-element collection) yields a bare single
outcome, not a one-element collection. -/
theorem c3_amended (st : ValidatorState) (sid : String) (resource profiles : JVal)
    (batchId : String) (stringify : JVal → String)
    (respond : Nat → Except String ServerResponse) (resp : ServerResponse)
    (hs : st.sessionId = some sid) (hr : respond 0 = .ok resp)
    (hM : resp.outcomes.length = (toArray resource).length) :
    (resp.outcomes.length ≠ 1 →
      (validate st resource profiles batchId stringify respond).result
        = .ok (.collection (processOutcomes batchId resp.outcomes)))
    ∧ (processOutcomes batchId resp.outcomes).length = (toArray resource).length
    ∧ (∀ (i : Nat) (h1 : i < (processOutcomes batchId resp.outcomes).length)
        (h2 : i < resp.outcomes.length),
        (processOutcomes batchId resp.outcomes).get ⟨i, h1⟩
          = stripOutcome batchId i (resp.outcomes.get ⟨i, h2⟩))
    ∧ (∀ o : Outcome, resp.outcomes = [o] →
        (validate st resource profiles batchId stringify respond).result
          = .ok (.single (stripOutcome batchId 0 o))) := by
  refine ⟨?_, ?_, ?_, ?_⟩
  · intro hne
    unfold validate
    simp only [hs, hr]
    have hlen : (processOutcomes batchId resp.outcomes).length ≠ 1 := by
      rw [processOutcomes_length]; exact hne
    rcases hos : processOutcomes batchId resp.outcomes with _ | ⟨o, _ | ⟨o2, os⟩⟩
    · simp [hos]
    · exact absurd (by rw [hos]; rfl) hlen
    · simp [hos]
  · rw [processOutcomes_length, hM]
  · exact fun i h1 h2 => processOutcomes_get batchId resp.outcomes i h1 h2
  · intro o ho
    unfold validate
    simp only [hs, hr]
    simp [ho, processOutcomes]

/-- C3, witness for `c3_amended` at a concrete two-item batch. -/
theorem c3_witness :
    (validate
      { cliContext := some [("sv", JVal.str "4.0.1")], sessionId := some "s"
        keepAliveInterval := true, process := none, pid := none }
      (JVal.arr [JVal.num 1, JVal.num 2]) (JVal.arr []) "b" (fun _ => "")
      (fun _ => .ok { sessionId := some "s"
                      outcomes := [{ fileInfo := some (fileNameFor "b" 0), issues := [] },
                                   { fileInfo := some (fileNameFor "b" 1), issues := ["e"] }] })).result
      = .ok (.collection (processOutcomes "b"
          [{ fileInfo := some (fileNameFor "b" 0), issues := [] },
           { fileInfo := some (fileNameFor "b" 1), issues := ["e"] }])) :=
  (c3_amended
    { cliContext := some [("sv", JVal.str "4.0.1")], sessionId := some "s"
      keepAliveInterval := true, process := none, pid := none }
    "s" (JVal.arr [JVal.num 1, JVal.num 2]) (JVal.arr []) "b" (fun _ => "")
    (fun _ => .ok { sessionId := some "s"
                    outcomes := [{ fileInfo := some (fileNameFor "b" 0), issues := [] },
                                 { fileInfo := some (fileNameFor "b" 1), issues := ["e"] }] })
    { sessionId := some "s"
      outcomes := [{ fileInfo := some (fileNameFor "b" 0), issues := [] },
                   { fileInfo := some (fileNameFor "b" 1), issues := ["e"] }] }
    rfl rfl rfl).1 (by decide)

/-! ## Claim C4 -/

/-- C4, counterexample.  The claim says each item's request is retried
up to 3 attempts with growing delay and that exhausting them fails the
batch with an error naming the item's index and the last underlying
error.  In the code a single transport failure — even one whose very
next attempt would have succeeded — immediately fails the whole batch
with the fixed, index-free message `"FHIR validation request
failed."`; the same constant message is produced for a different
failing batch with a different underlying error. -/
theorem c4_counterexample :
    (validate
      { cliContext := some [("sv", JVal.str "4.0.1")], sessionId := some "s"
        keepAliveInterval := true, process := none, pid := none }
      (JVal.arr [JVal.obj [], JVal.obj []]) (JVal.arr []) "b" (fun _ => "")
      (fun k => if k = 0 then .error "ECONNRESET while validating item 1"
                else .ok { sessionId := some "s", outcomes := [] })).result
      = .error "FHIR validation request failed."
    ∧ (validate
      { cliContext := some [("sv", JVal.str "4.0.1")], sessionId := some "s"
        keepAliveInterval := true, process := none, pid := none }
      (JVal.arr [JVal.obj []]) (JVal.arr []) "c" (fun _ => "")
      (fun _ => .error "EPIPE while validating item 0")).result
      = .error "FHIR validation request failed." :=
  ⟨rfl, rfl⟩

/-- C4, amended.  `validate()` makes exactly one request attempt for
the whole batch: its behavior depends only on the first attempt's
result (no retry, no backoff), and any transport failure fails the
whole batch with the fixed error `"FHIR validation request failed."`,
which names neither the failing item's index nor the underlying
error. -/
theorem c4_amended (st : ValidatorState) (resource profiles : JVal) (batchId : String)
    (stringify : JVal → String) :
    (∀ respond respond' : Nat → Except String ServerResponse, respond 0 = respond' 0 →
      validate st resource profiles batchId stringify respond
        = validate st resource profiles batchId stringify respond')
    ∧ (∀ (sid e : String) (respond : Nat → Except String ServerResponse),
        st.sessionId = some sid → respond 0 = .error e →
        (validate st resource profiles batchId stringify respond).result
          = .error "FHIR validation request failed.") := by
  constructor
  · intro respond respond' h
    unfold validate
    cases hs : st.sessionId with
    | none => rfl
    | some sid => rw [h]
  · intro sid e respond hs hr
    unfold validate
    simp [hs, hr]

/-- C4, witness for `c4_amended` at a concrete failing call. -/
theorem c4_witness :
    (validate
      { cliContext := some [("sv", JVal.str "4.0.1")], sessionId := some "s"
        keepAliveInterval := true, process := none, pid := none }
      (JVal.num 1) (JVal.arr []) "b" (fun _ => "")
      (fun _ => .error "boom")).result
      = .error "FHIR validation request failed." :=
  (c4_amended _ (JVal.num 1) (JVal.arr []) "b" (fun _ => "")).2 "s" "boom" _ rfl rfl

/-! ## Claim C6 -/

/-- C6, confirmed.  Whenever a `validate()` response carries a
(truthy) session id different from the one sent, the instance adopts
it with no caller-visible error: the stored session identifier equals
the new id in the state under which outcomes are returned, the result
is the normal outcome value, and every subsequent request — the
keep-alive ping and any network request a later `validate()` issues —
carries the new id automatically. -/
theorem c6_theorem (st : ValidatorState) (sid sid' : String) (resource profiles : JVal)
    (batchId : String) (stringify : JVal → String)
    (respond : Nat → Except String ServerResponse) (resp : ServerResponse)
    (hs : st.sessionId = some sid) (hr : respond 0 = .ok resp)
    (hsid : resp.sessionId = some sid') (hne : sid' ≠ "") (hdiff : sid' ≠ sid) :
    (validate st resource profiles batchId stringify respond).state.sessionId = some sid'
    ∧ (validate st resource profiles batchId stringify respond).result
        = .ok (match processOutcomes batchId resp.outcomes with
            | [o] => .single o
            | os => .collection os)
    ∧ (keepAliveRequest (validate st resource profiles batchId stringify respond).state).sessionId
        = some sid'
    ∧ (∀ (r2 p2 : JVal) (b2 : String) (f2 : JVal → String)
        (respond2 : Nat → Except String ServerResponse) (req2 : ValidateRequest),
        (validate (validate st resource profiles batchId stringify respond).state
            r2 p2 b2 f2 respond2).request = some req2 →
        req2.sessionId = some sid') := by
  have hdiff2 : ¬(sid = sid') := fun h => hdiff h.symm
  have h1 : (validate st resource profiles batchId stringify respond).state.sessionId
      = some sid' := by
    unfold validate
    simp only [hs, hr, hsid]
    simp [hne, hdiff2]
  refine ⟨h1, ?_, ?_, ?_⟩
  · unfold validate
    simp only [hs, hr, hsid]
  · simp [keepAliveRequest, h1]
  · intro r2 p2 b2 f2 respond2 req2 hreq
    rw [validate_request_sessionId _ r2 p2 b2 f2 respond2 req2 hreq, h1]

/-- C6, witness for `c6_theorem` at a concrete session rotation. -/
theorem c6_witness :
    (validate
      { cliContext := some [("sv", JVal.str "4.0.1")], sessionId := some "old-id"
        keepAliveInterval := true, process := none, pid := none }
      (JVal.obj []) (JVal.arr []) "b" (fun _ => "")
      (fun _ => .ok { sessionId := some "new-id"
                      outcomes := [{ fileInfo := some (fileNameFor "b" 0), issues := [] }] })).state.sessionId
      = some "new-id" :=
  (c6_theorem
    { cliContext := some [("sv", JVal.str "4.0.1")], sessionId := some "old-id"
      keepAliveInterval := true, process := none, pid := none }
    "old-id" "new-id" (JVal.obj []) (JVal.arr []) "b" (fun _ => "")
    (fun _ => .ok { sessionId := some "new-id"
                    outcomes := [{ fileInfo := some (fileNameFor "b" 0), issues := [] }] })
    { sessionId := some "new-id"
      outcomes := [{ fileInfo := some (fileNameFor "b" 0), issues := [] }] }
    rfl rfl rfl (by decide) (by decide)).1

/-! ## Claim C8 -/

/-- C8, counterexample.  The claim says the `fileInfo` correlation
metadata is stripped from matched and mismatched outcomes alike.  An
outcome whose `fileInfo.fileName` does not match its synthetic
identifier is handed back to the caller with its `fileInfo` intact. -/
theorem c8_counterexample :
    (validate
      { cliContext := some [("sv", JVal.str "4.0.1")], sessionId := some "s"
        keepAliveInterval := true, process := none, pid := none }
      (JVal.obj []) (JVal.arr []) "b" (fun _ => "")
      (fun _ => .ok { sessionId := some "s"
                      outcomes := [{ fileInfo := some "WRONG.json", issues := ["i"] }] })).result
      = .ok (.single { fileInfo := some "WRONG.json", issues := ["i"] })
    ∧ (some "WRONG.json" : Option String) ≠ none :=
  ⟨rfl, by decide⟩

/-- C8, amended.  In the outcome list `validate()` hands back, the
`fileInfo` correlation metadata is deleted from an outcome exactly
when its `fileName` matches the synthetic identifier for its index; a
mismatched outcome (only logged) is returned completely unchanged,
`fileInfo` included. -/
theorem c8_amended (batchId : String) (os : List Outcome) (i : Nat)
    (h1 : i < (processOutcomes batchId os).length) (h2 : i < os.length) :
    ((os.get ⟨i, h2⟩).fileInfo = some (fileNameFor batchId i) →
      ((processOutcomes batchId os).get ⟨i, h1⟩).fileInfo = none)
    ∧ ((os.get ⟨i, h2⟩).fileInfo ≠ some (fileNameFor batchId i) →
      (processOutcomes batchId os).get ⟨i, h1⟩ = os.get ⟨i, h2⟩) := by
  rw [processOutcomes_get batchId os i h1 h2]
  simp only [List.get_eq_getElem]
  constructor
  · intro h
    simp [stripOutcome, h]
  · intro h
    simp [stripOutcome, h]

/-- C8, witness for `c8_amended` at a concrete mismatched outcome. -/
theorem c8_witness :
    (([{ fileInfo := some "mismatch.json", issues := ["i"] }] : List Outcome).get
        ⟨0, by decide⟩).fileInfo ≠ some (fileNameFor "b" 0)
    ∧ (processOutcomes "b" [{ fileInfo := some "mismatch.json", issues := ["i"] }]).get
        ⟨0, by simp [processOutcomes]⟩
      = ([{ fileInfo := some "mismatch.json", issues := ["i"] }] : List Outcome).get
        ⟨0, by decide⟩ :=
  ⟨by decide,
   (c8_amended "b" [{ fileInfo := some "mismatch.json", issues := ["i"] }] 0
     (by simp [processOutcomes]) (by decide)).2 (by decide)⟩

/-! ## Claim C7 -/

/-- C7, counterexample.  The claim says no operation after the
constructor changes any field of the instance's `cliContext`.  A
`validate()` call with a non-empty profiles argument writes the
`profiles` field of the instance's `cliContext` in place: before the
call the field is `undefined`, afterwards it is the profiles array. -/
theorem c7_counterexample :
    ((initializeSession
        (FHIRValidator.construct (some [("sv", JVal.str "1"), ("igs", JVal.arr [JVal.str "x"])]))
        (.ok (some "s"))).map
      (fun st1 =>
        (validate st1 (JVal.obj []) (JVal.str "p") "b" (fun _ => "")
          (fun _ => .ok { sessionId := some "s", outcomes := [] })).state.cliContext.map
          (fun c => oget c "profiles")))
      = .ok (some (JVal.arr [JVal.str "p"]))
    ∧ (FHIRValidator.construct
        (some [("sv", JVal.str "1"), ("igs", JVal.arr [JVal.str "x"])])).cliContext.map
        (fun c => oget c "profiles") = some JVal.undefined
    ∧ JVal.arr [JVal.str "p"] ≠ JVal.undefined :=
  ⟨rfl, rfl, fun h => JVal.noConfusion h⟩

/-- C7, amended.  The keep-alive tick, `initializeSession()` and
`validate()` with an (effectively) empty profiles list leave the
instance's `cliContext` untouched; but `validate()` with a non-empty
profiles list mutates it in place, setting exactly the `profiles`
field to the profiles array and leaving every other field unchanged —
so the `cliContext` bundle is not immutable after creation. -/
theorem c7_amended :
    (∀ st : ValidatorState, (keepAliveTick st).1 = st)
    ∧ (∀ (st : ValidatorState) (r : Except String (Option String)) (st' : ValidatorState),
        initializeSession st r = .ok st' → st'.cliContext = st.cliContext)
    ∧ (∀ (st : ValidatorState) (resource profiles : JVal) (batchId : String)
        (stringify : JVal → String) (respond : Nat → Except String ServerResponse),
        toArray profiles = [] →
        (validate st resource profiles batchId stringify respond).state.cliContext
          = st.cliContext)
    ∧ (∀ (st : ValidatorState) (c : JObj) (sid : String) (resource profiles : JVal)
        (batchId : String) (stringify : JVal → String)
        (respond : Nat → Except String ServerResponse),
        st.cliContext = some c → st.sessionId = some sid → toArray profiles ≠ [] →
        ∃ c', (validate st resource profiles batchId stringify respond).state.cliContext
            = some c'
          ∧ oget c' "profiles" = JVal.arr (toArray profiles)
          ∧ ∀ k, k ≠ "profiles" → oget c' k = oget c k) := by
  refine ⟨fun st => rfl, ?_, ?_, ?_⟩
  · intro st r st' h
    cases r with
    | error e => simp [initializeSession] at h
    | ok sid => simp [initializeSession] at h; rw [← h]
  · intro st resource profiles batchId stringify respond hp
    cases hs : st.sessionId with
    | none => unfold validate; simp [hs]
    | some sid =>
        rw [validate_state_cliContext st sid resource profiles batchId stringify respond hs]
        simp [hp]
  · intro st c sid resource profiles batchId stringify respond hc hs hp
    have hlen : (toArray profiles).length > 0 := by
      cases hq : toArray profiles with
      | nil => exact absurd hq hp
      | cons a as => simp
    refine ⟨oset c "profiles" (JVal.arr (toArray profiles)), ?_, ?_, ?_⟩
    · rw [validate_state_cliContext st sid resource profiles batchId stringify respond hs, hc]
      simp [hlen]
    · exact oget_oset_self c "profiles" (JVal.arr (toArray profiles))
    · intro k hk
      exact oget_oset_of_ne c "profiles" k (JVal.arr (toArray profiles)) hk

/-- C7, witness for `c7_amended` at a concrete call with empty
profiles. -/
theorem c7_witness :
    (validate
      { cliContext := some [("sv", JVal.str "1")], sessionId := some "s"
        keepAliveInterval := true, process := none, pid := none }
      (JVal.obj []) (JVal.arr []) "b" (fun _ => "")
      (fun _ => .error "e")).state.cliContext = some [("sv", JVal.str "1")] :=
  c7_amended.2.2.1
    { cliContext := some [("sv", JVal.str "1")], sessionId := some "s"
      keepAliveInterval := true, process := none, pid := none }
    (JVal.obj []) (JVal.arr []) "b" (fun _ => "") (fun _ => .error "e") rfl

/-! ## Claim C9 -/

theorem oget_normalize_txServer (ctx : JObj) :
    oget (normalizeCliContext ctx) "txServer"
      = if (oget ctx "txServer").truthy && isNaTxServer (oget ctx "txServer")
        then JVal.null else oget ctx "txServer" := by
  unfold normalizeCliContext
  set c1 := if (oget ctx "txServer").truthy && isNaTxServer (oget ctx "txServer")
            then oset ctx "txServer" JVal.null else ctx with hc1
  have h1 : oget c1 "txServer"
      = if (oget ctx "txServer").truthy && isNaTxServer (oget ctx "txServer")
        then JVal.null else oget ctx "txServer" := by
    rw [hc1]
    by_cases h : ((oget ctx "txServer").truthy && isNaTxServer (oget ctx "txServer")) = true
    · simp [h, oget_oset_self]
    · simp [h]
  set c2 := if (oget c1 "igs").truthy then c1 else oset c1 "igs" (JVal.arr []) with hc2
  have h2 : oget c2 "txServer" = oget c1 "txServer" := by
    rw [hc2]
    by_cases h : (oget c1 "igs").truthy = true
    · simp [h]
    · simp [h, oget_oset_of_ne c1 "igs" "txServer" (JVal.arr []) (by simp)]
  rw [← h1, ← h2]
  by_cases h : (oget c2 "sv").truthy = true
  · simp [h]
  · simp [h, oget_oset_of_ne c2 "sv" "txServer" (JVal.str "4.0.1") (by simp)]

theorem oget_normalize_igs (ctx : JObj) :
    oget (normalizeCliContext ctx) "igs"
      = if (oget ctx "igs").truthy then oget ctx "igs" else JVal.arr [] := by
  unfold normalizeCliContext
  set c1 := if (oget ctx "txServer").truthy && isNaTxServer (oget ctx "txServer")
            then oset ctx "txServer" JVal.null else ctx with hc1
  have h1 : oget c1 "igs" = oget ctx "igs" := by
    rw [hc1]
    by_cases h : ((oget ctx "txServer").truthy && isNaTxServer (oget ctx "txServer")) = true
    · simp [h, oget_oset_of_ne ctx "txServer" "igs" JVal.null (by simp)]
    · simp [h]
  set c2 := if (oget c1 "igs").truthy then c1 else oset c1 "igs" (JVal.arr []) with hc2
  have h2 : oget c2 "igs" = if (oget ctx "igs").truthy then oget ctx "igs" else JVal.arr [] := by
    rw [hc2]
    by_cases h : (oget c1 "igs").truthy = true
    · simp [h, h1 ▸ h, h1]
    · have hx : ¬(oget ctx "igs").truthy = true := by rw [← h1]; exact h
      simp [h, hx, oget_oset_self]
  rw [← h2]
  by_cases h : (oget c2 "sv").truthy = true
  · simp [h]
  · simp [h, oget_oset_of_ne c2 "sv" "igs" (JVal.str "4.0.1") (by simp)]

theorem oget_normalize_sv (ctx : JObj) :
    oget (normalizeCliContext ctx) "sv"
      = if (oget ctx "sv").truthy then oget ctx "sv" else JVal.str "4.0.1" := by
  unfold normalizeCliContext
  set c1 := if (oget ctx "txServer").truthy && isNaTxServer (oget ctx "txServer")
            then oset ctx "txServer" JVal.null else ctx with hc1
  have h1 : oget c1 "sv" = oget ctx "sv" := by
    rw [hc1]
    by_cases h : ((oget ctx "txServer").truthy && isNaTxServer (oget ctx "txServer")) = true
    · simp [h, oget_oset_of_ne ctx "txServer" "sv" JVal.null (by simp)]
    · simp [h]
  set c2 := if (oget c1 "igs").truthy then c1 else oset c1 "igs" (JVal.arr []) with hc2
  have h2 : oget c2 "sv" = oget ctx "sv" := by
    rw [hc2]
    by_cases h : (oget c1 "igs").truthy = true
    · simp [h, h1]
    · simp [h, oget_oset_of_ne c1 "igs" "sv" (JVal.arr []) (by simp), h1]
  by_cases h : (oget c2 "sv").truthy = true
  · rw [h2] at h
    simp [h, h2]
  · rw [h2] at h
    simp [h, h2, oget_oset_self]

theorem oget_normalize_other (ctx : JObj) (k : String)
    (h1 : k ≠ "txServer") (h2 : k ≠ "igs") (h3 : k ≠ "sv") :
    oget (normalizeCliContext ctx) k = oget ctx k := by
  unfold normalizeCliContext
  set c1 := if (oget ctx "txServer").truthy && isNaTxServer (oget ctx "txServer")
            then oset ctx "txServer" JVal.null else ctx with hc1
  have e1 : oget c1 k = oget ctx k := by
    rw [hc1]
    by_cases h : ((oget ctx "txServer").truthy && isNaTxServer (oget ctx "txServer")) = true
    · simp [h, oget_oset_of_ne ctx "txServer" k JVal.null h1]
    · simp [h]
  set c2 := if (oget c1 "igs").truthy then c1 else oset c1 "igs" (JVal.arr []) with hc2
  have e2 : oget c2 k = oget ctx k := by
    rw [hc2]
    by_cases h : (oget c1 "igs").truthy = true
    · simp [h, e1]
    · simp [h, oget_oset_of_ne c1 "igs" k (JVal.arr []) h2, e1]
  by_cases h : (oget c2 "sv").truthy = true
  · simp [h, e2]
  · simp [h, oget_oset_of_ne c2 "sv" k (JVal.str "4.0.1") h3, e2]

/-- C9, counterexample.  The claim says a `txServer` equal to `''` is
replaced by `null` by the constructor.  Because `''` is falsy, the
truthiness guard `this.cliContext?.txServer && ...` short-circuits and
the constructor leaves `txServer` as `''`, not `null`. -/
theorem c9_counterexample :
    (FHIRValidator.construct (some [("txServer", JVal.str "")])).cliContext.map
        (fun c => oget c "txServer") = some (JVal.str "")
    ∧ JVal.str "" ≠ JVal.null :=
  ⟨rfl, fun h => JVal.noConfusion h⟩

/-- C9, amended.  The constructor stores the normalized context; a
truthy `txServer` equal to one of the sentinel strings (`'n/a'`,
`'null'`, `'none'`, `'na'` — `''` is also in the sentinel list but,
being falsy, can never pass the guard) is replaced by `null` while a
`txServer` of `''` is left unchanged; a falsy (in particular missing)
`igs` is set to the empty list and a truthy one kept; a falsy (in
particular missing) `sv` is set to `'4.0.1'` and a truthy one kept;
every other field is left unchanged. -/
theorem c9_amended (ctx : JObj) :
    (FHIRValidator.construct (some ctx)).cliContext = some (normalizeCliContext ctx)
    ∧ (∀ s : String, (s = "n/a" ∨ s = "null" ∨ s = "none" ∨ s = "na") →
        oget ctx "txServer" = JVal.str s →
        oget (normalizeCliContext ctx) "txServer" = JVal.null)
    ∧ (oget ctx "txServer" = JVal.str "" →
        oget (normalizeCliContext ctx) "txServer" = JVal.str "")
    ∧ ((oget ctx "igs").truthy = false →
        oget (normalizeCliContext ctx) "igs" = JVal.arr [])
    ∧ ((oget ctx "igs").truthy = true →
        oget (normalizeCliContext ctx) "igs" = oget ctx "igs")
    ∧ ((oget ctx "sv").truthy = false →
        oget (normalizeCliContext ctx) "sv" = JVal.str "4.0.1")
    ∧ ((oget ctx "sv").truthy = true →
        oget (normalizeCliContext ctx) "sv" = oget ctx "sv")
    ∧ (∀ k, k ≠ "txServer" → k ≠ "igs" → k ≠ "sv" →
        oget (normalizeCliContext ctx) k = oget ctx k) := by
  refine ⟨rfl, ?_, ?_, ?_, ?_, ?_, ?_, oget_normalize_other ctx⟩
  · intro s hsent htx
    rw [oget_normalize_txServer, htx]
    have hs0 : ¬(s = "") := by
      rcases hsent with h | h | h | h <;> subst h <;> simp
    have htr : (JVal.str s).truthy = true := by simp [JVal.truthy, hs0]
    have hna : isNaTxServer (JVal.str s) = true := by
      rcases hsent with h | h | h | h <;> subst h <;> rfl
    simp [htr, hna]
  · intro htx
    rw [oget_normalize_txServer, htx]
    simp [JVal.truthy]
  · intro h
    rw [oget_normalize_igs]
    simp [h]
  · intro h
    rw [oget_normalize_igs]
    simp [h]
  · intro h
    rw [oget_normalize_sv]
    simp [h]
  · intro h
    rw [oget_normalize_sv]
    simp [h]

/-- C9, witness for `c9_amended` at a concrete context. -/
theorem c9_witness :
    oget (normalizeCliContext [("txServer", JVal.str "n/a"), ("locale", JVal.str "en")])
        "txServer" = JVal.null
    ∧ oget (normalizeCliContext [("txServer", JVal.str "n/a"), ("locale", JVal.str "en")])
        "igs" = JVal.arr []
    ∧ oget (normalizeCliContext [("txServer", JVal.str "n/a"), ("locale", JVal.str "en")])
        "sv" = JVal.str "4.0.1"
    ∧ oget (normalizeCliContext [("txServer", JVal.str "n/a"), ("locale", JVal.str "en")])
        "locale" = JVal.str "en" :=
  ⟨(c9_amended [("txServer", JVal.str "n/a"), ("locale", JVal.str "en")]).2.1 "n/a"
      (Or.inl rfl) rfl,
   (c9_amended [("txServer", JVal.str "n/a"), ("locale", JVal.str "en")]).2.2.2.1 rfl,
   (c9_amended [("txServer", JVal.str "n/a"), ("locale", JVal.str "en")]).2.2.2.2.2.1 rfl,
   (c9_amended [("txServer", JVal.str "n/a"), ("locale", JVal.str "en")]).2.2.2.2.2.2.2
      "locale" (by decide) (by decide) (by decide)⟩

/-! ## Claim C10 -/

theorem shutdown_fields (st : ValidatorState) (w : World) :
    (shutdown st w).1.sessionId = st.sessionId
    ∧ (shutdown st w).1.keepAliveInterval = false
    ∧ (shutdown st w).1.cliContext = st.cliContext
    ∧ (shutdown st w).2 = w := by
  unfold shutdown
  cases hk : st.keepAliveInterval <;> cases hp : st.process <;> simp [hk, hp]

theorem startValidator_preserves (st : ValidatorState) (w : World) (initialUp : Bool)
    (serverReady serverUp : Nat → Bool) (newPid fuel : Nat)
    (v1 : ValidatorState) (w1 : World)
    (h : startValidator st w initialUp serverReady serverUp newPid fuel = some (v1, w1)) :
    v1.sessionId = st.sessionId ∧ v1.keepAliveInterval = st.keepAliveInterval
      ∧ v1.cliContext = st.cliContext := by
  unfold startValidator at h
  split at h
  · simp only [Option.some.injEq, Prod.mk.injEq] at h
    obtain ⟨h1, h2⟩ := h
    subst h1
    exact ⟨rfl, rfl, rfl⟩
  · cases hw : startWait serverReady serverUp fuel 0 with
    | ready =>
        rw [hw] at h
        simp only [Option.some.injEq, Prod.mk.injEq] at h
        obtain ⟨h1, h2⟩ := h
        subst h1
        exact ⟨rfl, rfl, rfl⟩
    | otherBound =>
        rw [hw] at h
        simp only [Option.some.injEq, Prod.mk.injEq] at h
        obtain ⟨h1, h2⟩ := h
        subst h1
        exact ⟨rfl, rfl, rfl⟩
    | pending =>
        rw [hw] at h
        simp at h

/-- C10, confirmed.  `createValidatorInstance` with no `cliContext`
argument starts (or detects) the validator server process, then —
because the context is falsy — immediately calls `shutdown()` on the
freshly created instance and returns `undefined`: the caller receives
no usable validator object, no session is initialized on the
discarded instance (its `sessionId` is still `null` and no keep-alive
timer is left), and `initializeSession`'s network response is never
consulted. -/
theorem c10_theorem (w : World) (initialUp : Bool) (serverReady serverUp : Nat → Bool)
    (newPid fuel : Nat) (initResponse : Except String (Option String))
    (v1 : ValidatorState) (w1 : World)
    (hstart : startValidator (FHIRValidator.construct none) w initialUp serverReady
        serverUp newPid fuel = some (v1, w1)) :
    createValidatorInstance none w initialUp serverReady serverUp newPid fuel initResponse
      = some (.ok (none, (shutdown v1 w1).1), (shutdown v1 w1).2)
    ∧ (shutdown v1 w1).1.sessionId = none
    ∧ (shutdown v1 w1).1.keepAliveInterval = false
    ∧ ∀ r : Except String (Option String),
        createValidatorInstance none w initialUp serverReady serverUp newPid fuel r
          = createValidatorInstance none w initialUp serverReady serverUp newPid fuel
              initResponse := by
  obtain ⟨hsid, hka, hcli⟩ :=
    startValidator_preserves (FHIRValidator.construct none) w initialUp serverReady
      serverUp newPid fuel v1 w1 hstart
  refine ⟨?_, ?_, ?_, ?_⟩
  · unfold createValidatorInstance
    dsimp only
    rw [hstart]
  · rw [(shutdown_fields v1 w1).1, hsid]
    rfl
  · exact (shutdown_fields v1 w1).2.1
  · intro r
    unfold createValidatorInstance
    dsimp only

/-- C10, witness for `c10_theorem` with the server already running. -/
theorem c10_witness :
    createValidatorInstance none { childRunning := false } true (fun _ => false)
        (fun _ => false) 0 0 (.ok (some "s"))
      = some (.ok (none,
          (shutdown (FHIRValidator.construct none) { childRunning := false }).1),
          (shutdown (FHIRValidator.construct none) { childRunning := false }).2)
    ∧ (shutdown (FHIRValidator.construct none) { childRunning := false }).1.sessionId
        = none :=
  ⟨(c10_theorem { childRunning := false } true (fun _ => false) (fun _ => false) 0 0
      (.ok (some "s")) (FHIRValidator.construct none) { childRunning := false } rfl).1,
   (c10_theorem { childRunning := false } true (fun _ => false) (fun _ => false) 0 0
      (.ok (some "s")) (FHIRValidator.construct none) { childRunning := false } rfl).2.1⟩
